import Mathlib

/-!
Shallow embedding of the task scheduling core of the ai-agents-system
repository (src/tasks/task_manager.py, src/tasks/complex_tasks.py,
src/tasks/task_executor.py) together with the slice of the agent contract
(src/brain/agents/base_agent.py) that agent selection reads.

Modelling conventions:
* Python dicts are association lists `List (String × α)`; a dict write is
  `dict_set` (observationally equivalent to Python assignment up to `lookup`,
  which is all the verified operations read).
* The asyncio FIFO queue is a `List Task`; `put` appends at the tail.
* Float scores are embedded as exact rationals `ℚ`; every score literal in
  the source (0.5, 0.3, 0.2) and every comparison the claims mention is
  exact in `ℚ`.
* The awaited result of `agent.execute(task)` inside `_process_task` is an
  explicit `ExecOutcome` parameter (success payload, timeout, or a raised
  exception's message), making the dispatch branch structure explicit.
* Timestamps (`datetime.now().isoformat()`) are opaque strings passed in as
  a `now` parameter.
-/

namespace AgentsSystem

/-- TaskStatus enum of src/tasks/task_manager.py. -/
inductive TaskStatus where
  | pending
  | in_progress
  | completed
  | failed
  | cancelled
deriving DecidableEq, Repr

/-- TaskPriority enum of src/tasks/task_manager.py. -/
inductive TaskPriority where
  | low
  | medium
  | high
  | critical
deriving DecidableEq, Repr

/-- One task record, as built by TaskManager.create_task.  The payload is
represented by the single field the scheduler consumes,
payload['required_capabilities']; the agent result payload is opaque. -/
structure Task where
  task_id : String
  type : String
  required_capabilities : List String
  priority : TaskPriority
  status : TaskStatus
  dependencies : List String
  timeout : Nat
  created_at : String
  updated_at : String
  retry_count : Nat
  max_retries : Nat
  assigned_agent : Option String
  result : Option String
  error : Option String
deriving DecidableEq, Repr

/-- Python dict assignment d[k] = v, modelled up to lookup. -/
def dict_set {α : Type} (m : List (String × α)) (k : String) (v : α) :
    List (String × α) :=
  (k, v) :: m.filter (fun p => !(p.1 == k))

/-- TaskManager.create_task: the record allocated for a fresh task
(status PENDING, retry_count 0, max_retries 3, no agent, no result/error). -/
def create_task_record (task_id : String) (task_type : String)
    (required_capabilities : List String) (priority : TaskPriority)
    (dependencies : List String) (timeout : Nat) (now : String) : Task :=
  { task_id := task_id
    type := task_type
    required_capabilities := required_capabilities
    priority := priority
    status := TaskStatus.pending
    dependencies := dependencies
    timeout := timeout
    created_at := now
    updated_at := now
    retry_count := 0
    max_retries := 3
    assigned_agent := none
    result := none
    error := none }

/-- TaskManager state: the tasks dict and the pending FIFO queue. -/
structure ManagerState where
  tasks : List (String × Task)
  queue : List Task
deriving Repr

/-- TaskManager.create_task acting on the manager state: store the record
and put it on the queue. -/
def create_task (st : ManagerState) (task_id : String) (task_type : String)
    (required_capabilities : List String) (priority : TaskPriority)
    (dependencies : List String) (timeout : Nat) (now : String) : ManagerState :=
  let task := create_task_record task_id task_type required_capabilities
    priority dependencies timeout now
  { tasks := dict_set st.tasks task_id task, queue := st.queue ++ [task] }

/-- TaskManager.cancel_task: succeeds (returning True and flipping the record
to CANCELLED with a fresh updated_at) only when the record exists with status
PENDING or IN_PROGRESS. -/
def cancel_task (st : ManagerState) (task_id : String) (now : String) :
    Bool × ManagerState :=
  match st.tasks.lookup task_id with
  | some t =>
    if t.status = TaskStatus.pending ∨ t.status = TaskStatus.in_progress then
      let t2 := { t with status := TaskStatus.cancelled, updated_at := now }
      (true, { st with tasks := dict_set st.tasks task_id t2 })
    else (false, st)
  | none => (false, st)

/-- TaskManager._check_dependencies: every listed dependency id must be
present in the tasks dict with status COMPLETED. -/
def check_dependencies (tasks : List (String × Task))
    (dependencies : List String) : Bool :=
  dependencies.all (fun dep =>
    match tasks.lookup dep with
    | some dep_task => dep_task.status == TaskStatus.completed
    | none => false)

/-- The per-task-type performance entry maintained by
BaseAgent._update_performance_metrics (execution-time fields omitted: the
selector never reads them). -/
structure Perf where
  total_tasks : Nat
  successful_tasks : Nat
deriving DecidableEq, Repr

/-- The slice of the agent contract that TaskManager's selector reads:
capabilities and the per-type performance_metrics dict exposed by
get_performance_report. -/
structure Agent where
  agent_id : String
  capabilities : List String
  performance_metrics : List (String × Perf)
deriving DecidableEq, Repr

/-- BaseAgent's metrics writer keeps total_tasks ≥ 1 in every entry it
creates; reachable agent states satisfy this. -/
def PerfWF (agent : Agent) : Prop :=
  ∀ p ∈ agent.performance_metrics, 0 < p.2.total_tasks

instance (agent : Agent) : Decidable (PerfWF agent) := by
  unfold PerfWF; infer_instance

/-- TaskManager._calculate_agent_suitability: +0.5 when the required
capability set is a subset of the agent's, +success_rate × 0.3 from the
history entry for this exact task type when one exists, +0.2 flat. -/
def calculate_agent_suitability (agent : Agent) (task_type : String)
    (required_capabilities : List String) : ℚ :=
  let capability_score : ℚ :=
    if required_capabilities.all (fun c => agent.capabilities.contains c)
    then 1/2 else 0
  let history_score : ℚ :=
    match agent.performance_metrics.lookup task_type with
    | some p =>
      ((p.successful_tasks : ℚ) / (p.total_tasks : ℚ)) * (3/10)
    | none => 0
  capability_score + history_score + 1/5

/-- One iteration of the best-agent scan in TaskManager._find_agent_for_task:
keep the incumbent unless the candidate's score is strictly higher. -/
def consider (task_type : String) (required_capabilities : List String)
    (acc : Option Agent × ℚ) (agent : Agent) : Option Agent × ℚ :=
  let score := calculate_agent_suitability agent task_type required_capabilities
  if acc.2 < score then (some agent, score) else acc

/-- TaskManager._find_agent_for_task: scan the registry for the strictly
highest suitability score, returning no agent when the best score is 0.
The source reads only the task's type and payload required_capabilities;
they are passed directly. -/
def find_agent_for_task (registry : List Agent) (task_type : String)
    (required_capabilities : List String) : Option Agent :=
  let best := registry.foldl (consider task_type required_capabilities)
    (none, (0 : ℚ))
  if 0 < best.2 then best.1 else none

/-- The awaited outcome of agent.execute(task) under asyncio.wait_for:
a success payload, a timeout, or an exception carrying a message. -/
inductive ExecOutcome where
  | ok (result : String)
  | timeout
  | exn (msg : String)
deriving DecidableEq, Repr

/-- Result of one TaskManager._process_task call: the final state of the
processed record and the records put back on the queue by the call. -/
structure ProcResult where
  task : Task
  requeued : List Task
deriving DecidableEq, Repr

/-- TaskManager._process_task: mark IN_PROGRESS and record the worker, fail
fast with "Dependencies not met" when the dependency list is non-empty and
unmet, fail with "No suitable agent found for task type: {type}" when the
selector returns no agent, otherwise dispatch and handle the outcome —
success fills result and completes; timeout fails with
"Task timeout after {timeout} seconds" and returns; an exception fails the
task and then, while retry_count < max_retries, increments retry_count,
resets status to PENDING, clears assigned_agent and error, and re-enqueues
the record. -/
def process_task (tasks : List (String × Task)) (registry : List Agent)
    (outcome : ExecOutcome) (now : String) (t : Task) (worker_id : String) :
    ProcResult :=
  let t1 := { t with status := TaskStatus.in_progress,
                     assigned_agent := some worker_id, updated_at := now }
  if !t1.dependencies.isEmpty && !check_dependencies tasks t1.dependencies then
    { task := { t1 with status := TaskStatus.failed,
                        error := some "Dependencies not met" },
      requeued := [] }
  else
    match find_agent_for_task registry t1.type t1.required_capabilities with
    | none =>
      let tna := { t1 with status := TaskStatus.failed,
                           error := some ("No suitable agent found for task type: "
                             ++ t1.type) }
      { task := tna, requeued := [] }
    | some _agent =>
      match outcome with
      | ExecOutcome.ok r =>
        let tok := { t1 with result := some r, status := TaskStatus.completed }
        { task := tok, requeued := [] }
      | ExecOutcome.timeout =>
        let tto := { t1 with status := TaskStatus.failed,
                             error := some ("Task timeout after "
                               ++ toString t1.timeout ++ " seconds") }
        { task := tto, requeued := [] }
      | ExecOutcome.exn msg =>
        let tf := { t1 with status := TaskStatus.failed, error := some msg }
        if tf.retry_count < tf.max_retries then
          let tr := { tf with retry_count := tf.retry_count + 1,
                              status := TaskStatus.pending,
                              assigned_agent := none,
                              error := none }
          { task := tr, requeued := [tr] }
        else
          { task := tf, requeued := [] }

/-- One step specification of a complex-project template in
src/tasks/complex_tasks.py (payload represented by its
required_capabilities, the only payload field the scheduler consumes). -/
structure StepSpec where
  step : Nat
  name : String
  type : String
  agent_type : String
  required_capabilities : List String
  dependencies : List String
  priority : String
deriving DecidableEq, Repr

/-- ComplexTaskBuilder._create_software_development_tasks: the fixed
8-step template. -/
def software_development_steps : List StepSpec :=
  [ { step := 1, name := "Requirements Analysis", type := "analyze_requirements",
      agent_type := "business_analysis",
      required_capabilities := ["requirements_analysis", "domain_knowledge"],
      dependencies := [], priority := "high" },
    { step := 2, name := "System Architecture Design", type := "design_system",
      agent_type := "architecture",
      required_capabilities := ["system_design", "architecture_patterns"],
      dependencies := ["step_1"], priority := "high" },
    { step := 3, name := "Database Design", type := "design_database",
      agent_type := "architecture",
      required_capabilities := ["database_design", "data_modeling"],
      dependencies := ["step_2"], priority := "medium" },
    { step := 4, name := "API Design", type := "design_apis",
      agent_type := "architecture",
      required_capabilities := ["api_design", "rest_principles"],
      dependencies := ["step_2"], priority := "medium" },
    { step := 5, name := "Core Module Development", type := "generate_code",
      agent_type := "code_generation",
      required_capabilities := ["code_generation", "backend_development"],
      dependencies := ["step_2", "step_3", "step_4"], priority := "high" },
    { step := 6, name := "UI/UX Development", type := "generate_code",
      agent_type := "code_generation",
      required_capabilities := ["code_generation", "frontend_development"],
      dependencies := ["step_2", "step_4"], priority := "medium" },
    { step := 7, name := "Integration Testing", type := "test_integration",
      agent_type := "code_review",
      required_capabilities := ["testing", "integration"],
      dependencies := ["step_5", "step_6"], priority := "medium" },
    { step := 8, name := "Documentation", type := "document_code",
      agent_type := "code_generation",
      required_capabilities := ["documentation", "technical_writing"],
      dependencies := ["step_5", "step_6"], priority := "low" } ]

/-- ComplexTaskBuilder._create_business_plan_tasks: the fixed 5-step
template. -/
def business_plan_steps : List StepSpec :=
  [ { step := 1, name := "Market Analysis", type := "analyze_market",
      agent_type := "market_analysis",
      required_capabilities := ["market_research", "competitor_analysis"],
      dependencies := [], priority := "high" },
    { step := 2, name := "Financial Projections", type := "financial_analysis",
      agent_type := "financial_analysis",
      required_capabilities := ["financial_modeling", "forecasting"],
      dependencies := ["step_1"], priority := "high" },
    { step := 3, name := "Strategic Planning", type := "develop_strategy",
      agent_type := "strategic_planning",
      required_capabilities := ["strategic_planning", "vision_development"],
      dependencies := ["step_1", "step_2"], priority := "high" },
    { step := 4, name := "Risk Assessment", type := "assess_risks",
      agent_type := "risk_management",
      required_capabilities := ["risk_assessment", "mitigation_planning"],
      dependencies := ["step_3"], priority := "medium" },
    { step := 5, name := "Executive Summary", type := "create_summary",
      agent_type := "business_plan",
      required_capabilities := ["business_writing", "summarization"],
      dependencies := ["step_1", "step_2", "step_3", "step_4"],
      priority := "medium" } ]

/-- ComplexTaskBuilder._parse_priority: string to TaskPriority, defaulting
to MEDIUM. -/
def parse_priority (priority_str : String) : TaskPriority :=
  if priority_str = "low" then TaskPriority.low
  else if priority_str = "medium" then TaskPriority.medium
  else if priority_str = "high" then TaskPriority.high
  else if priority_str = "critical" then TaskPriority.critical
  else TaskPriority.medium

/-- An exception raised by the Python runtime while a builder method runs. -/
inductive PyError where
  | nameError (name : String)
  | attributeError (attr : String)
deriving DecidableEq, Repr

/-- The record ComplexTaskBuilder stores per project.  `progress` is absent
until the monitor writes it, modelled as an Option. -/
structure ComplexTask where
  project_id : String
  tasks : List StepSpec
  status : String
  current_step : Nat
  task_ids : List (String × String)
  progress : Option ℚ
deriving DecidableEq, Repr

/-- ComplexTaskBuilder state: the complex_tasks dict. -/
structure BuilderState where
  complex_tasks : List (String × ComplexTask)
deriving Repr

/-- The module-level names bound by the import statements of
src/tasks/complex_tasks.py, which bring in Dict, List and Any from typing,
Enum from enum, and the uuid module.  asyncio is not among them, although
the module body refers to it. -/
def complex_tasks_module_imports : List String :=
  ["Dict", "List", "Any", "Enum", "uuid"]

/-- Whether the name asyncio resolves inside src/tasks/complex_tasks.py.
Referencing an unbound module name in Python raises NameError. -/
def asyncio_in_scope : Bool := complex_tasks_module_imports.contains "asyncio"

/-- The dependency resolution of _execute_complex_task:
[task_ids[dep] for dep in step['dependencies'] if dep in task_ids]. -/
def resolve_step_deps (task_ids : List (String × String))
    (dependencies : List String) : List String :=
  dependencies.filterMap (fun dep => task_ids.lookup dep)

/-- The body of the step-creation loop of _execute_complex_task: create one
TaskManager task for the indexed step (fresh id from `ids`, dependencies
resolved against the ids created so far, default timeout 300) and record
the step reference → task id pair. -/
def complex_step_fold (ids : Nat → String) (now : String)
    (acc : List (String × String) × ManagerState) (p : Nat × StepSpec) :
    List (String × String) × ManagerState :=
  let tid := ids p.1
  let step := p.2
  let tm2 := create_task acc.2 tid step.type step.required_capabilities
    (parse_priority step.priority) (resolve_step_deps acc.1 step.dependencies)
    300 now
  (acc.1 ++ [("step_" ++ toString step.step, tid)], tm2)

/-- ComplexTaskBuilder._execute_complex_task: mark the record executing,
create one TaskManager task per step (resolving step references against the
already-created ids, default timeout 300), record the step→task-id map and
current_step = 1, then evaluate asyncio.create_task — which raises a
NameError for the name asyncio because the module never imports it.
Mutations performed before the raise persist, as in Python.  `ids` supplies
the fresh uuid-based task id for each step index. -/
def execute_complex_task (ids : Nat → String) (now : String)
    (ct : ComplexTask) (tm : ManagerState) :
    Except PyError Unit × ComplexTask × ManagerState :=
  let ct1 := { ct with status := "executing" }
  let folded := ct1.tasks.enum.foldl (complex_step_fold ids now) ([], tm)
  let ct2 := { ct1 with task_ids := folded.1, current_step := 1 }
  if asyncio_in_scope then
    (Except.ok (), ct2, folded.2)
  else
    (Except.error (PyError.nameError "asyncio"), ct2, folded.2)

/-- ComplexTaskBuilder.create_multi_agent_project: select the template for
the project type (the source calls self._create_market_analysis_tasks and
self._create_generic_project_tasks for the remaining types, but neither
method is defined anywhere in the class, so those calls raise
AttributeError before anything is stored), store the record with status
'planning', then run _execute_complex_task; on success the project id is
returned, and an exception propagates to the caller instead (with the
record mutations kept). -/
def create_multi_agent_project (ids : Nat → String) (now : String)
    (builder : BuilderState) (tm : ManagerState)
    (project_type : String) (project_id : String) :
    Except PyError String × BuilderState × ManagerState :=
  let template : Except PyError (List StepSpec) :=
    if project_type = "software_development" then
      Except.ok software_development_steps
    else if project_type = "business_plan" then
      Except.ok business_plan_steps
    else if project_type = "market_analysis" then
      Except.error (PyError.attributeError "_create_market_analysis_tasks")
    else
      Except.error (PyError.attributeError "_create_generic_project_tasks")
  match template with
  | Except.error e => (Except.error e, builder, tm)
  | Except.ok steps =>
    let ct : ComplexTask :=
      { project_id := project_id, tasks := steps, status := "planning",
        current_step := 0, task_ids := [], progress := none }
    match execute_complex_task ids now ct tm with
    | (Except.ok _, ct2, tm2) =>
      (Except.ok project_id,
       { complex_tasks := dict_set builder.complex_tasks project_id ct2 }, tm2)
    | (Except.error e, ct2, tm2) =>
      (Except.error e,
       { complex_tasks := dict_set builder.complex_tasks project_id ct2 }, tm2)

/-- One workflow step as read by TaskExecutor._monitor_workflow: its id and
its effective on_failure policy (step.get('on_failure', 'stop')). -/
structure WStep where
  id : String
  on_failure : String
deriving DecidableEq, Repr

/-- One pass of the inner for-loop of TaskExecutor._monitor_workflow over
the step list: skip steps already in the completed set; a step whose task
reports status 'completed' is added to the set; a step whose task reports
'failed' is added when its on_failure policy is "continue" and otherwise
triggers the break statement, which ends this scan (condition evaluation,
which only inserts extra task_map entries for dynamically created steps, is
omitted: it is unreachable in the failure path).  `status_of` gives
get_task_result's status string for a task id, none when the id is
unknown. -/
def monitor_scan (status_of : String → Option String)
    (task_map : List (String × String)) :
    List WStep → List String → List String
  | [], completed => completed
  | step :: rest, completed =>
    if step.id ∈ completed then
      monitor_scan status_of task_map rest completed
    else
      match (task_map.lookup step.id).bind status_of with
      | some s =>
        if s = "completed" then
          monitor_scan status_of task_map rest (completed ++ [step.id])
        else if s = "failed" then
          if step.on_failure = "continue" then
            monitor_scan status_of task_map rest (completed ++ [step.id])
          else
            completed
        else
          monitor_scan status_of task_map rest completed
      | none => monitor_scan status_of task_map rest completed

/-- The while-loop of TaskExecutor._monitor_workflow, fuel-indexed: while
the completed set is smaller than the step list, sleep and re-scan; when
the while condition turns false the loop falls through to
_finalize_workflow, modelled as `some completed`.  `none` means the loop
was still running after `fuel` iterations. -/
def monitor_workflow_loop (status_of : String → Option String)
    (task_map : List (String × String)) (steps : List WStep) :
    Nat → List String → Option (List String)
  | 0, _ => none
  | fuel + 1, completed =>
    if steps.length ≤ completed.length then
      some completed
    else
      monitor_workflow_loop status_of task_map steps fuel
        (monitor_scan status_of task_map steps completed)

/-- The success rate as the specification words it: the agent's
successful/total ratio for this exact task type, 0 when there is no
history. -/
def spec_success_rate (agent : Agent) (task_type : String) : ℚ :=
  match agent.performance_metrics.lookup task_type with
  | some p => (p.successful_tasks : ℚ) / (p.total_tasks : ℚ)
  | none => 0

/-- The suitability score as the specification words it: 0.5 added iff the
agent's capability set is a superset of the required capabilities, plus
0.3 × success_rate, plus an unconditional 0.2 availability bonus. -/
def spec_suitability (agent : Agent) (task_type : String)
    (required_capabilities : List String) : ℚ :=
  (if ∀ c ∈ required_capabilities, c ∈ agent.capabilities then (1:ℚ)/2 else 0)
    + (3:ℚ)/10 * spec_success_rate agent task_type + 1/5

/-- Concrete fixture: a single registered agent whose capability set is
exactly code_generation, with no execution history. -/
def codegen_agent : Agent :=
  { agent_id := "agent_1", capabilities := ["code_generation"],
    performance_metrics := [] }

/-- Concrete fixture: a freshly created task requiring code_generation. -/
def fixture_task : Task :=
  create_task_record "task_1" "generate_code" ["code_generation"]
    TaskPriority.medium [] 300 "T0"

/-- Concrete fixture: a freshly created task with one dependency. -/
def dep_fixture_task : Task :=
  create_task_record "task_2" "generate_code" []
    TaskPriority.medium ["task_missing"] 300 "T0"

section Helpers

lemma dict_set_lookup {α : Type} (m : List (String × α)) (k : String) (v : α) :
    (dict_set m k v).lookup k = some v := by
  simp [dict_set, List.lookup]

lemma score_codegen :
    calculate_agent_suitability codegen_agent "generate_code"
      ["code_generation"] = 7/10 := by
  simp [calculate_agent_suitability, codegen_agent]
  norm_num

lemma find_codegen :
    find_agent_for_task [codegen_agent] "generate_code" ["code_generation"]
      = some codegen_agent := by
  simp [find_agent_for_task, consider, score_codegen]

lemma process_task_deps_unmet (tasks : List (String × Task))
    (registry : List Agent) (outcome : ExecOutcome) (now : String) (t : Task)
    (w : String) (h1 : t.dependencies ≠ [])
    (h2 : check_dependencies tasks t.dependencies = false) :
    process_task tasks registry outcome now t w =
      { task := { t with status := TaskStatus.failed,
                         assigned_agent := some w, updated_at := now,
                         error := some "Dependencies not met" },
        requeued := [] } := by
  have hne : t.dependencies.isEmpty = false := by
    cases hd : t.dependencies with
    | nil => exact absurd hd h1
    | cons a l => rfl
  unfold process_task
  simp [hne, h2]

lemma deps_cond_false (tasks : List (String × Task)) (t : Task)
    (hd : t.dependencies = [] ∨ check_dependencies tasks t.dependencies = true) :
    (!t.dependencies.isEmpty && !check_dependencies tasks t.dependencies)
      = false := by
  rcases hd with h | h
  · simp [h]
  · simp [h]

lemma process_task_no_agent (tasks : List (String × Task))
    (registry : List Agent) (outcome : ExecOutcome) (now : String) (t : Task)
    (w : String)
    (hd : t.dependencies = [] ∨ check_dependencies tasks t.dependencies = true)
    (hfa : find_agent_for_task registry t.type t.required_capabilities = none) :
    process_task tasks registry outcome now t w =
      { task := { t with status := TaskStatus.failed,
                         assigned_agent := some w, updated_at := now,
                         error := some ("No suitable agent found for task type: "
                           ++ t.type) },
        requeued := [] } := by
  unfold process_task
  simp [deps_cond_false tasks t hd, hfa]

lemma process_task_ok (tasks : List (String × Task)) (registry : List Agent)
    (r : String) (now : String) (t : Task) (w : String) (a : Agent)
    (hd : t.dependencies = [] ∨ check_dependencies tasks t.dependencies = true)
    (hfa : find_agent_for_task registry t.type t.required_capabilities
      = some a) :
    process_task tasks registry (ExecOutcome.ok r) now t w =
      { task := { t with status := TaskStatus.completed,
                         assigned_agent := some w, updated_at := now,
                         result := some r },
        requeued := [] } := by
  unfold process_task
  simp [deps_cond_false tasks t hd, hfa]

lemma process_task_timeout (tasks : List (String × Task))
    (registry : List Agent) (now : String) (t : Task) (w : String) (a : Agent)
    (hd : t.dependencies = [] ∨ check_dependencies tasks t.dependencies = true)
    (hfa : find_agent_for_task registry t.type t.required_capabilities
      = some a) :
    process_task tasks registry ExecOutcome.timeout now t w =
      { task := { t with status := TaskStatus.failed,
                         assigned_agent := some w, updated_at := now,
                         error := some ("Task timeout after "
                           ++ toString t.timeout ++ " seconds") },
        requeued := [] } := by
  unfold process_task
  simp [deps_cond_false tasks t hd, hfa]

lemma process_task_exn_retry (tasks : List (String × Task))
    (registry : List Agent) (msg : String) (now : String) (t : Task)
    (w : String) (a : Agent)
    (hd : t.dependencies = [] ∨ check_dependencies tasks t.dependencies = true)
    (hfa : find_agent_for_task registry t.type t.required_capabilities
      = some a)
    (hlt : t.retry_count < t.max_retries) :
    process_task tasks registry (ExecOutcome.exn msg) now t w =
      { task := { t with status := TaskStatus.pending,
                         assigned_agent := none, updated_at := now,
                         error := none,
                         retry_count := t.retry_count + 1 },
        requeued := [{ t with status := TaskStatus.pending,
                              assigned_agent := none, updated_at := now,
                              error := none,
                              retry_count := t.retry_count + 1 }] } := by
  unfold process_task
  simp [deps_cond_false tasks t hd, hfa, hlt]

lemma process_task_exn_exhausted (tasks : List (String × Task))
    (registry : List Agent) (msg : String) (now : String) (t : Task)
    (w : String) (a : Agent)
    (hd : t.dependencies = [] ∨ check_dependencies tasks t.dependencies = true)
    (hfa : find_agent_for_task registry t.type t.required_capabilities
      = some a)
    (hge : ¬ t.retry_count < t.max_retries) :
    process_task tasks registry (ExecOutcome.exn msg) now t w =
      { task := { t with status := TaskStatus.failed,
                         assigned_agent := some w, updated_at := now,
                         error := some msg },
        requeued := [] } := by
  unfold process_task
  simp [deps_cond_false tasks t hd, hfa, hge]

lemma complex_fold_lengths (ids : Nat → String) (now : String) :
    ∀ (pairs : List (Nat × StepSpec))
      (acc : List (String × String) × ManagerState),
      (pairs.foldl (complex_step_fold ids now) acc).1.length
          = acc.1.length + pairs.length ∧
      (pairs.foldl (complex_step_fold ids now) acc).2.queue.length
          = acc.2.queue.length + pairs.length := by
  intro pairs
  induction pairs with
  | nil => intro acc; simp
  | cons p rest ih =>
    intro acc
    have h := ih (complex_step_fold ids now acc p)
    simp only [List.foldl_cons] at *
    have h1 : (complex_step_fold ids now acc p).1.length = acc.1.length + 1 := by
      simp [complex_step_fold]
    have h2 : (complex_step_fold ids now acc p).2.queue.length
        = acc.2.queue.length + 1 := by
      simp [complex_step_fold, create_task]
    rw [h.1, h.2, h1, h2]
    simp [List.length_cons]
    omega

lemma consider_snd_le (ty : String) (caps : List String)
    (acc : Option Agent × ℚ) (a : Agent) :
    acc.2 ≤ (consider ty caps acc a).2 := by
  simp only [consider]
  split
  · next h => exact le_of_lt h
  · exact le_refl _

lemma consider_snd_ge_score (ty : String) (caps : List String)
    (acc : Option Agent × ℚ) (a : Agent) :
    calculate_agent_suitability a ty caps ≤ (consider ty caps acc a).2 := by
  simp only [consider]
  split
  · exact le_refl _
  · next h => exact le_of_not_lt h

lemma foldl_consider_snd_mono (ty : String) (caps : List String) :
    ∀ (l : List Agent) (acc : Option Agent × ℚ),
      acc.2 ≤ (l.foldl (consider ty caps) acc).2 := by
  intro l
  induction l with
  | nil => intro acc; exact le_refl _
  | cons a rest ih =>
    intro acc
    calc acc.2 ≤ (consider ty caps acc a).2 := consider_snd_le ty caps acc a
    _ ≤ ((a :: rest).foldl (consider ty caps) acc).2 := by
        rw [List.foldl_cons]; exact ih (consider ty caps acc a)

lemma foldl_consider_fst_isSome (ty : String) (caps : List String) :
    ∀ (l : List Agent) (acc : Option Agent × ℚ),
      (0 < acc.2 → acc.1.isSome = true) →
      0 < (l.foldl (consider ty caps) acc).2 →
      (l.foldl (consider ty caps) acc).1.isSome = true := by
  intro l
  induction l with
  | nil => intro acc h; exact h
  | cons a rest ih =>
    intro acc h
    rw [List.foldl_cons]
    apply ih
    simp only [consider]
    split
    · intro _; rfl
    · exact h

lemma suitability_ge_fifth (a : Agent) (ty : String) (caps : List String) :
    (1:ℚ)/5 ≤ calculate_agent_suitability a ty caps := by
  simp only [calculate_agent_suitability]
  have hcap : (0:ℚ) ≤ (if (caps.all fun c => a.capabilities.contains c) = true
      then (1:ℚ)/2 else 0) := by
    split <;> norm_num
  have hhist : (0:ℚ) ≤ (match a.performance_metrics.lookup ty with
      | some p => ((p.successful_tasks : ℚ) / (p.total_tasks : ℚ)) * (3/10)
      | none => 0) := by
    cases hl : a.performance_metrics.lookup ty with
    | some p =>
      have hdiv : (0:ℚ) ≤ (p.successful_tasks : ℚ) / (p.total_tasks : ℚ) :=
        div_nonneg (Nat.cast_nonneg _) (Nat.cast_nonneg _)
      simpa using mul_nonneg hdiv (show (0:ℚ) ≤ 3/10 by norm_num)
    | none => simp [hl]
  linarith [hcap, hhist]

lemma find_agent_nonempty_isSome (registry : List Agent) (ty : String)
    (caps : List String) (hne : registry ≠ []) :
    (find_agent_for_task registry ty caps).isSome = true := by
  cases registry with
  | nil => exact absurd rfl hne
  | cons a rest =>
    unfold find_agent_for_task
    have hstep : (1:ℚ)/5 ≤ (consider ty caps (none, (0:ℚ)) a).2 :=
      le_trans (suitability_ge_fifth a ty caps)
        (consider_snd_ge_score ty caps (none, (0:ℚ)) a)
    have hpos : 0 < ((a :: rest).foldl (consider ty caps) (none, (0:ℚ))).2 := by
      rw [List.foldl_cons]
      have := foldl_consider_snd_mono ty caps rest (consider ty caps (none, (0:ℚ)) a)
      linarith
    have hsome := foldl_consider_fst_isSome ty caps (a :: rest) (none, (0:ℚ))
      (by intro h; exact absurd h (by norm_num)) hpos
    simp only [hpos, if_pos]
    exact hsome

end Helpers

/-- C1: a freshly created task has retry_count 0 and max_retries 3;
processing preserves retry_count ≤ max_retries for the processed record and
everything it re-enqueues; when agent execution raises an exception and
retry_count < max_retries the record's retry_count is incremented, its
status reset to PENDING, its assigned_agent and error cleared, and exactly
that record is re-enqueued; when retries are exhausted a further exception
leaves the record FAILED with the error captured and nothing re-enqueued. -/
theorem retry_count_bounded_and_retry_resets :
    (∀ id ty caps p deps tmo now,
       (create_task_record id ty caps p deps tmo now).retry_count = 0 ∧
       (create_task_record id ty caps p deps tmo now).max_retries = 3) ∧
    (∀ tasks registry outcome now t w, t.retry_count ≤ t.max_retries →
       ((process_task tasks registry outcome now t w).task.retry_count ≤
          (process_task tasks registry outcome now t w).task.max_retries ∧
        ∀ t2 ∈ (process_task tasks registry outcome now t w).requeued,
          t2.retry_count ≤ t2.max_retries)) ∧
    (∀ tasks registry msg now t w,
       (t.dependencies = [] ∨ check_dependencies tasks t.dependencies = true) →
       (find_agent_for_task registry t.type t.required_capabilities).isSome
         = true →
       t.retry_count < t.max_retries →
       (process_task tasks registry (ExecOutcome.exn msg) now t w).task =
         { t with status := TaskStatus.pending, assigned_agent := none,
                  updated_at := now, error := none,
                  retry_count := t.retry_count + 1 } ∧
       (process_task tasks registry (ExecOutcome.exn msg) now t w).requeued =
         [(process_task tasks registry (ExecOutcome.exn msg) now t w).task]) ∧
    (∀ tasks registry msg now t w,
       (t.dependencies = [] ∨ check_dependencies tasks t.dependencies = true) →
       (find_agent_for_task registry t.type t.required_capabilities).isSome
         = true →
       ¬ t.retry_count < t.max_retries →
       (process_task tasks registry (ExecOutcome.exn msg) now t w).task.status
         = TaskStatus.failed ∧
       (process_task tasks registry (ExecOutcome.exn msg) now t w).task.error
         = some msg ∧
       (process_task tasks registry (ExecOutcome.exn msg) now t w).requeued
         = []) := by
  refine ⟨fun id ty caps p deps tmo now => ⟨rfl, rfl⟩, ?_, ?_, ?_⟩
  · intro tasks registry outcome now t w h
    by_cases h1 : t.dependencies = [] ∨ check_dependencies tasks t.dependencies
        = true
    · cases hfa : find_agent_for_task registry t.type t.required_capabilities
        with
      | none => rw [process_task_no_agent tasks registry outcome now t w h1 hfa]
                exact ⟨h, by simp⟩
      | some a =>
        cases outcome with
        | ok r => rw [process_task_ok tasks registry r now t w a h1 hfa]
                  exact ⟨h, by simp⟩
        | timeout => rw [process_task_timeout tasks registry now t w a h1 hfa]
                     exact ⟨h, by simp⟩
        | exn msg =>
          by_cases hlt : t.retry_count < t.max_retries
          · rw [process_task_exn_retry tasks registry msg now t w a h1 hfa hlt]
            constructor
            · simp; omega
            · intro t2 ht2
              simp at ht2
              rw [ht2]
              simp; omega
          · rw [process_task_exn_exhausted tasks registry msg now t w a h1 hfa
              hlt]
            exact ⟨h, by simp⟩
    · push_neg at h1
      rw [process_task_deps_unmet tasks registry outcome now t w h1.1
        (by cases hc : check_dependencies tasks t.dependencies with
            | true => exact absurd hc h1.2
            | false => rfl)]
      exact ⟨h, by simp⟩
  · intro tasks registry msg now t w hd hfa hlt
    obtain ⟨a, ha⟩ := Option.isSome_iff_exists.mp hfa
    rw [process_task_exn_retry tasks registry msg now t w a hd ha hlt]
    exact ⟨rfl, rfl⟩
  · intro tasks registry msg now t w hd hfa hge
    obtain ⟨a, ha⟩ := Option.isSome_iff_exists.mp hfa
    rw [process_task_exn_exhausted tasks registry msg now t w a hd ha hge]
    exact ⟨rfl, rfl, rfl⟩

/-- Witness for C1 at a concrete input: the fresh code-generation fixture
task, failed once by its agent, is re-enqueued as PENDING with retry_count
1 and cleared assignment and error. -/
theorem retry_count_bounded_and_retry_resets_witness :
    (process_task [] [codegen_agent] (ExecOutcome.exn "boom") "T1"
        fixture_task "worker-1").task =
      { fixture_task with status := TaskStatus.pending, assigned_agent := none,
                          updated_at := "T1", error := none,
                          retry_count := fixture_task.retry_count + 1 } ∧
    (process_task [] [codegen_agent] (ExecOutcome.exn "boom") "T1"
        fixture_task "worker-1").requeued =
      [(process_task [] [codegen_agent] (ExecOutcome.exn "boom") "T1"
        fixture_task "worker-1").task] :=
  retry_count_bounded_and_retry_resets.2.2.1 [] [codegen_agent] "boom" "T1"
    fixture_task "worker-1" (Or.inl rfl)
    (by show (find_agent_for_task [codegen_agent] "generate_code"
          ["code_generation"]).isSome = true
        rw [find_codegen]; rfl)
    (by decide)

/-- C2: dependency checking succeeds exactly when every listed dependency
id is present with status COMPLETED; when a task's dependency list is
non-empty and the check fails, processing marks it FAILED with error
exactly "Dependencies not met", leaves retry_count untouched, and
re-enqueues nothing. -/
theorem dependencies_unmet_failfast :
    (∀ tasks deps, check_dependencies tasks deps = true ↔
       ∀ d ∈ deps, ∃ dt, tasks.lookup d = some dt ∧
         dt.status = TaskStatus.completed) ∧
    (∀ tasks registry outcome now t w,
       t.dependencies ≠ [] →
       check_dependencies tasks t.dependencies = false →
       (process_task tasks registry outcome now t w).task.status
         = TaskStatus.failed ∧
       (process_task tasks registry outcome now t w).task.error
         = some "Dependencies not met" ∧
       (process_task tasks registry outcome now t w).task.retry_count
         = t.retry_count ∧
       (process_task tasks registry outcome now t w).requeued = []) := by
  constructor
  · intro tasks deps
    simp only [check_dependencies, List.all_eq_true]
    constructor
    · intro h d hd
      have hx := h d hd
      cases hl : tasks.lookup d with
      | none => rw [hl] at hx; exact absurd hx (by simp)
      | some dt =>
        rw [hl] at hx
        exact ⟨dt, rfl, by simpa using hx⟩
    · intro h d hd
      obtain ⟨dt, hl, hs⟩ := h d hd
      rw [hl]
      simp [hs]
  · intro tasks registry outcome now t w h1 h2
    rw [process_task_deps_unmet tasks registry outcome now t w h1 h2]
    exact ⟨rfl, rfl, rfl, rfl⟩

/-- Witness for C2 at a concrete input: the fixture task depending on an id
absent from an empty task table fails fast with "Dependencies not met". -/
theorem dependencies_unmet_failfast_witness :
    (process_task [] [] (ExecOutcome.ok "r") "T1" dep_fixture_task
        "worker-1").task.error = some "Dependencies not met" ∧
    (process_task [] [] (ExecOutcome.ok "r") "T1" dep_fixture_task
        "worker-1").requeued = [] :=
  have h := dependencies_unmet_failfast.2 [] [] (ExecOutcome.ok "r") "T1"
    dep_fixture_task "worker-1" (by decide) (by decide)
  ⟨h.2.1, h.2.2.2⟩

/-- Counterexample to C3 as stated: with an empty registry the fixture task
has retry_count 0 < max_retries 3, yet after the "No suitable agent" failure
its status is FAILED (not reset to PENDING), nothing is re-enqueued, and
retry_count is unchanged — _process_task returns before the retry logic. -/
theorem no_agent_failure_not_retried_cex :
    fixture_task.retry_count < fixture_task.max_retries ∧
    (process_task [] [] (ExecOutcome.exn "boom") "T1" fixture_task
        "worker-1").task.status = TaskStatus.failed ∧
    (process_task [] [] (ExecOutcome.exn "boom") "T1" fixture_task
        "worker-1").task.status ≠ TaskStatus.pending ∧
    (process_task [] [] (ExecOutcome.exn "boom") "T1" fixture_task
        "worker-1").task.retry_count = 0 ∧
    (process_task [] [] (ExecOutcome.exn "boom") "T1" fixture_task
        "worker-1").requeued = [] ∧
    (process_task [] [] (ExecOutcome.exn "boom") "T1" fixture_task
        "worker-1").task.error
      = some "No suitable agent found for task type: generate_code" := by
  decide

/-- C3 as amended: when agent selection finds no agent, the task is marked
FAILED with error "No suitable agent found for task type: {type}" and the
dispatcher returns immediately — the failure is not subject to the retry
policy: retry_count is unchanged and nothing is re-enqueued, regardless of
retry_count < max_retries. -/
theorem no_agent_failure_terminal :
    ∀ tasks registry outcome now t w,
      (t.dependencies = [] ∨ check_dependencies tasks t.dependencies = true) →
      find_agent_for_task registry t.type t.required_capabilities = none →
      (process_task tasks registry outcome now t w).task.status
        = TaskStatus.failed ∧
      (process_task tasks registry outcome now t w).task.error
        = some ("No suitable agent found for task type: " ++ t.type) ∧
      (process_task tasks registry outcome now t w).task.retry_count
        = t.retry_count ∧
      (process_task tasks registry outcome now t w).requeued = [] := by
  intro tasks registry outcome now t w hd hfa
  rw [process_task_no_agent tasks registry outcome now t w hd hfa]
  exact ⟨rfl, rfl, rfl, rfl⟩

/-- Witness for the amended C3 at a concrete input: empty registry, fresh
fixture task. -/
theorem no_agent_failure_terminal_witness :
    (process_task [] [] (ExecOutcome.exn "boom") "T2" fixture_task
        "worker-2").task.status = TaskStatus.failed ∧
    (process_task [] [] (ExecOutcome.exn "boom") "T2" fixture_task
        "worker-2").requeued = [] :=
  have h := no_agent_failure_terminal [] [] (ExecOutcome.exn "boom") "T2"
    fixture_task "worker-2" (Or.inl rfl) rfl
  ⟨h.1, h.2.2.2⟩

/-- C4: the computed suitability score coincides with the specification's
formula (0.5 iff the capability set covers the requirements, plus
0.3 × the success rate for this exact task type with 0 for no history, plus
the unconditional 0.2 availability bonus); and for a single registered
agent with capability set code_generation, a task requiring
code_generation, and no history, the score is at least 0.7 and that agent
is selected. -/
theorem suitability_formula_and_selection :
    (∀ agent ty caps, calculate_agent_suitability agent ty caps
       = spec_suitability agent ty caps) ∧
    (7:ℚ)/10 ≤ calculate_agent_suitability codegen_agent "generate_code"
      ["code_generation"] ∧
    find_agent_for_task [codegen_agent] "generate_code" ["code_generation"]
      = some codegen_agent := by
  refine ⟨?_, le_of_eq score_codegen.symm, find_codegen⟩
  intro agent ty caps
  simp only [calculate_agent_suitability, spec_suitability, spec_success_rate]
  have hiff : ((caps.all fun c => agent.capabilities.contains c) = true)
      ↔ (∀ c ∈ caps, c ∈ agent.capabilities) := by
    simp [List.all_eq_true]
  by_cases h : ∀ c ∈ caps, c ∈ agent.capabilities
  · rw [if_pos (hiff.mpr h), if_pos h]
    cases hl : agent.performance_metrics.lookup ty with
    | some p => simp only; ring
    | none => simp only; ring
  · rw [if_neg (fun hb => h (hiff.mp hb)), if_neg h]
    cases hl : agent.performance_metrics.lookup ty with
    | some p => simp only; ring
    | none => simp only; ring

/-- Counterexample to C5 as stated: at timeout 300 the error recorded by the
timeout branch is "Task timeout after 300 seconds", not the claimed
"Task timeout after 300s". -/
theorem timeout_error_string_cex :
    (process_task [] [codegen_agent] ExecOutcome.timeout "T1" fixture_task
        "worker-1").task.error = some "Task timeout after 300 seconds" ∧
    (process_task [] [codegen_agent] ExecOutcome.timeout "T1" fixture_task
        "worker-1").task.error ≠ some "Task timeout after 300s" := by
  have h := process_task_timeout [] [codegen_agent] "T1" fixture_task
    "worker-1" codegen_agent (Or.inl rfl)
    (by show find_agent_for_task [codegen_agent] "generate_code"
          ["code_generation"] = some codegen_agent
        exact find_codegen)
  rw [h]
  constructor
  · rfl
  · decide

/-- C5 as amended: when agent execution exceeds the task's timeout, the task
is marked FAILED with error "Task timeout after {timeout} seconds", and the
timeout branch performs no retry: retry_count is unchanged and nothing is
re-enqueued, so the timeout failure is terminal. -/
theorem timeout_failure_terminal :
    ∀ tasks registry now t w,
      (t.dependencies = [] ∨ check_dependencies tasks t.dependencies = true) →
      (find_agent_for_task registry t.type t.required_capabilities).isSome
        = true →
      (process_task tasks registry ExecOutcome.timeout now t w).task.status
        = TaskStatus.failed ∧
      (process_task tasks registry ExecOutcome.timeout now t w).task.error
        = some ("Task timeout after " ++ toString t.timeout ++ " seconds") ∧
      (process_task tasks registry ExecOutcome.timeout now t w).task.retry_count
        = t.retry_count ∧
      (process_task tasks registry ExecOutcome.timeout now t w).requeued
        = [] := by
  intro tasks registry now t w hd hfa
  obtain ⟨a, ha⟩ := Option.isSome_iff_exists.mp hfa
  rw [process_task_timeout tasks registry now t w a hd ha]
  exact ⟨rfl, rfl, rfl, rfl⟩

/-- Witness for the amended C5 at a concrete input: the fixture task with
timeout 300 against the code-generation agent. -/
theorem timeout_failure_terminal_witness :
    (process_task [] [codegen_agent] ExecOutcome.timeout "T3" fixture_task
        "worker-1").task.error = some "Task timeout after 300 seconds" ∧
    (process_task [] [codegen_agent] ExecOutcome.timeout "T3" fixture_task
        "worker-1").requeued = [] :=
  have h := timeout_failure_terminal [] [codegen_agent] "T3" fixture_task
    "worker-1" (Or.inl rfl)
    (by show (find_agent_for_task [codegen_agent] "generate_code"
          ["code_generation"]).isSome = true
        rw [find_codegen]; rfl)
  ⟨h.2.1, h.2.2.2⟩

/-- C6: cancel_task returns true exactly when the id is present with status
PENDING or IN_PROGRESS; a successful cancellation rewrites the record to
CANCELLED with a refreshed updated_at; and cancelling the same id twice in
a row returns false the second time, for every starting state. -/
theorem cancel_task_characterisation :
    (∀ st id now, (cancel_task st id now).1 = true ↔
       ∃ t, st.tasks.lookup id = some t ∧
         (t.status = TaskStatus.pending ∨ t.status = TaskStatus.in_progress)) ∧
    (∀ st id now t, st.tasks.lookup id = some t →
       (t.status = TaskStatus.pending ∨ t.status = TaskStatus.in_progress) →
       (cancel_task st id now).2.tasks.lookup id
         = some { t with status := TaskStatus.cancelled, updated_at := now }) ∧
    (∀ st id now now2,
       (cancel_task (cancel_task st id now).2 id now2).1 = false) := by
  refine ⟨?_, ?_, ?_⟩
  · intro st id now
    cases hl : st.tasks.lookup id with
    | none => simp [cancel_task, hl]
    | some t =>
      by_cases hs : t.status = TaskStatus.pending
          ∨ t.status = TaskStatus.in_progress
      · simp [cancel_task, hl, hs]
      · simp [cancel_task, hl, hs]
  · intro st id now t hl hs
    simp [cancel_task, hl, hs, dict_set_lookup]
  · intro st id now now2
    cases hl : st.tasks.lookup id with
    | none => simp [cancel_task, hl]
    | some t =>
      by_cases hs : t.status = TaskStatus.pending
          ∨ t.status = TaskStatus.in_progress
      · simp [cancel_task, hl, hs, dict_set_lookup]
      · simp [cancel_task, hl, hs]

/-- Witness for C6 at a concrete input: cancelling the stored pending
fixture task succeeds and flips it to CANCELLED. -/
theorem cancel_task_characterisation_witness :
    (cancel_task { tasks := [("task_1", fixture_task)], queue := [] }
        "task_1" "T4").2.tasks.lookup "task_1"
      = some { fixture_task with status := TaskStatus.cancelled,
                                 updated_at := "T4" } :=
  cancel_task_characterisation.2.1
    { tasks := [("task_1", fixture_task)], queue := [] } "task_1" "T4"
    fixture_task (by decide) (Or.inl rfl)

/-- C7, evaluated at the failing input: for every id supply and timestamp, a
software_development project (the 8-step ordered template, the one in which
step 5 can fail while its dependencies complete) raises a NameError for
asyncio out of create_multi_agent_project; the stored record is left with
status "executing" — never "paused" — and its progress field is never
written (so completed_steps = 4 and progress 50% are never reached); the
8 step tasks were nevertheless created and enqueued before the raise. -/
theorem complex_project_never_pauses :
    ∀ ids now,
      software_development_steps.length = 8 ∧
      (create_multi_agent_project ids now { complex_tasks := [] }
          { tasks := [], queue := [] } "software_development" "proj").1
        = Except.error (PyError.nameError "asyncio") ∧
      ((create_multi_agent_project ids now { complex_tasks := [] }
          { tasks := [], queue := [] } "software_development"
          "proj").2.1.complex_tasks.lookup "proj").map ComplexTask.status
        = some "executing" ∧
      ((create_multi_agent_project ids now { complex_tasks := [] }
          { tasks := [], queue := [] } "software_development"
          "proj").2.1.complex_tasks.lookup "proj").map ComplexTask.progress
        = some none ∧
      (create_multi_agent_project ids now { complex_tasks := [] }
          { tasks := [], queue := [] } "software_development"
          "proj").2.2.queue.length = 8 := by
  intro ids now
  refine ⟨rfl, rfl, rfl, rfl, ?_⟩
  show (software_development_steps.enum.foldl (complex_step_fold ids now)
      ([], { tasks := [], queue := [] })).2.queue.length = 8
  have h := (complex_fold_lengths ids now software_development_steps.enum
    ([], { tasks := [], queue := [] })).2
  simpa [List.enum_length] using h

/-- Fixture: one workflow step with the default on_failure policy. -/
def stop_step : WStep := { id := "s1", on_failure := "stop" }

/-- Fixture: one workflow step declaring on_failure = continue. -/
def continue_step : WStep := { id := "s1", on_failure := "continue" }

/-- Fixture: the step's task has terminally FAILED. -/
def failed_status_of : String → Option String :=
  fun tid => if tid = "task_1" then some "failed" else none

/-- Fixture: the step to task id map of the one-step workflow. -/
def one_step_task_map : List (String × String) := [("s1", "task_1")]

/-- Fixture: a second workflow step, default policy, whose task completes. -/
def second_step : WStep := { id := "s2", on_failure := "stop" }

/-- Fixture: the step to task id map of the two-step workflow. -/
def two_step_task_map : List (String × String) :=
  [("s1", "task_1"), ("s2", "task_2")]

/-- Fixture: step one's task has terminally FAILED, step two's completed. -/
def mixed_status_of : String → Option String :=
  fun tid => if tid = "task_1" then some "failed"
    else if tid = "task_2" then some "completed" else none

/-- C8, settled against the code: a FAILED step with on_failure = continue
is added to the completed set, the remaining steps keep being monitored
(the completing second step is collected in the same pass), and the monitor
loop terminates; but with the default on_failure = stop policy the break
leaves the failed step outside the completed set and only exits the
per-step scan — the second step is not polled in that pass and the monitor
while-loop never terminates: for every fuel bound it is still polling,
contradicting the claim (and the source's own comment) that the monitor
halts. -/
theorem workflow_on_failure_policies :
    monitor_scan failed_status_of one_step_task_map [continue_step] []
      = ["s1"] ∧
    monitor_workflow_loop failed_status_of one_step_task_map [continue_step]
      2 [] = some ["s1"] ∧
    monitor_scan mixed_status_of two_step_task_map [continue_step, second_step]
      [] = ["s1", "s2"] ∧
    monitor_workflow_loop mixed_status_of two_step_task_map
      [continue_step, second_step] 2 [] = some ["s1", "s2"] ∧
    monitor_scan mixed_status_of two_step_task_map [stop_step, second_step]
      [] = [] ∧
    (∀ fuel, monitor_workflow_loop mixed_status_of two_step_task_map
      [stop_step, second_step] fuel [] = none) ∧
    (∀ fuel, monitor_workflow_loop failed_status_of one_step_task_map
      [stop_step] fuel [] = none) := by
  refine ⟨by decide, by decide, by decide, by decide, by decide, ?_, ?_⟩
  · intro fuel
    induction fuel with
    | zero => rfl
    | succ n ih =>
      have hscan : monitor_scan mixed_status_of two_step_task_map
          [stop_step, second_step] [] = [] := by decide
      simp only [monitor_workflow_loop, List.length_cons, List.length_nil,
        hscan]
      simpa using ih
  · intro fuel
    induction fuel with
    | zero => rfl
    | succ n ih =>
      have hscan : monitor_scan failed_status_of one_step_task_map [stop_step]
          [] = [] := by decide
      simp only [monitor_workflow_loop, List.length_cons, List.length_nil,
        hscan]
      simpa using ih

/-- Counterexample to C9 as stated: a project definition of type
market_analysis does not raise a NameError after storing the record — the
call to the undefined method _create_market_analysis_tasks raises an
AttributeError first, and nothing at all is stored. -/
theorem project_unknown_type_cex :
    (create_multi_agent_project (fun i => "task_" ++ toString i) "T0"
        { complex_tasks := [] } { tasks := [], queue := [] }
        "market_analysis" "proj").1
      = Except.error (PyError.attributeError "_create_market_analysis_tasks") ∧
    (create_multi_agent_project (fun i => "task_" ++ toString i) "T0"
        { complex_tasks := [] } { tasks := [], queue := [] }
        "market_analysis" "proj").1
      ≠ Except.error (PyError.nameError "asyncio") ∧
    (create_multi_agent_project (fun i => "task_" ++ toString i) "T0"
        { complex_tasks := [] } { tasks := [], queue := [] }
        "market_analysis" "proj").2.1.complex_tasks = [] := by
  refine ⟨rfl, ?_, rfl⟩
  intro h
  rw [show (create_multi_agent_project (fun i => "task_" ++ toString i) "T0"
      { complex_tasks := [] } { tasks := [], queue := [] }
      "market_analysis" "proj").1
    = Except.error (PyError.attributeError "_create_market_analysis_tasks")
    from rfl] at h
  simp at h

/-- C9 as amended: for every project definition of a type whose template
method exists in the source — software_development or business_plan —
create_multi_agent_project raises an unhandled NameError for asyncio after
storing the project record as executing and creating and enqueueing one
task per step; the project id is never returned and the stored status never
becomes completed or paused through monitoring, which is never started. -/
theorem create_project_raises_name_error :
    ∀ ids now builder tm ptype pid,
      (ptype = "software_development" ∨ ptype = "business_plan") →
      (create_multi_agent_project ids now builder tm ptype pid).1
        = Except.error (PyError.nameError "asyncio") ∧
      ∃ ct, (create_multi_agent_project ids now builder tm ptype
          pid).2.1.complex_tasks.lookup pid = some ct ∧
        ct.status = "executing" ∧
        ct.current_step = 1 ∧
        ct.task_ids.length = ct.tasks.length ∧
        (create_multi_agent_project ids now builder tm ptype pid).2.2.queue.length
          = tm.queue.length + ct.tasks.length := by
  intro ids now builder tm ptype pid h
  rcases h with rfl | rfl
  · refine ⟨rfl, _, dict_set_lookup _ _ _, rfl, rfl, ?_, ?_⟩
    · show (software_development_steps.enum.foldl (complex_step_fold ids now)
          ([], tm)).1.length = software_development_steps.length
      have h := (complex_fold_lengths ids now
        software_development_steps.enum ([], tm)).1
      simpa [List.enum_length] using h
    · show (software_development_steps.enum.foldl (complex_step_fold ids now)
          ([], tm)).2.queue.length
        = tm.queue.length + software_development_steps.length
      have h := (complex_fold_lengths ids now
        software_development_steps.enum ([], tm)).2
      simpa [List.enum_length] using h
  · refine ⟨rfl, _, dict_set_lookup _ _ _, rfl, rfl, ?_, ?_⟩
    · show (business_plan_steps.enum.foldl (complex_step_fold ids now)
          ([], tm)).1.length = business_plan_steps.length
      have h := (complex_fold_lengths ids now
        business_plan_steps.enum ([], tm)).1
      simpa [List.enum_length] using h
    · show (business_plan_steps.enum.foldl (complex_step_fold ids now)
          ([], tm)).2.queue.length
        = tm.queue.length + business_plan_steps.length
      have h := (complex_fold_lengths ids now
        business_plan_steps.enum ([], tm)).2
      simpa [List.enum_length] using h

/-- Witness for the amended C9 at a concrete input: a business_plan project
raises the asyncio NameError instead of returning the project id. -/
theorem create_project_raises_name_error_witness :
    (create_multi_agent_project (fun i => "task_" ++ toString i) "T0"
        { complex_tasks := [] } { tasks := [], queue := [] }
        "business_plan" "proj").1
      = Except.error (PyError.nameError "asyncio") :=
  (create_project_raises_name_error (fun i => "task_" ++ toString i) "T0"
    { complex_tasks := [] } { tasks := [], queue := [] }
    "business_plan" "proj" (Or.inr rfl)).1

/-- C10: for well-formed agent histories the suitability score is at least
the unconditional 0.2 availability bonus, so agent selection fails (returns
no agent) exactly when the registry is empty — uncovered required
capabilities alone never cause the "No suitable agent" failure. -/
theorem suitability_floor_and_no_agent_iff_empty :
    (∀ agent ty caps, PerfWF agent →
       (1:ℚ)/5 ≤ calculate_agent_suitability agent ty caps) ∧
    (∀ registry ty caps, (∀ a ∈ registry, PerfWF a) →
       (find_agent_for_task registry ty caps = none ↔ registry = [])) := by
  constructor
  · intro agent ty caps _
    exact suitability_ge_fifth agent ty caps
  · intro registry ty caps _
    constructor
    · intro hnone
      by_contra hne
      have h := find_agent_nonempty_isSome registry ty caps hne
      rw [hnone] at h
      exact Bool.noConfusion h
    · intro h
      rw [h]
      rfl

/-- Witness for C10 at a concrete input: the history-free code-generation
agent scores at least 0.2 on an arbitrary task type with no capability
match, and a one-agent registry never yields the no-agent failure. -/
theorem suitability_floor_witness :
    (1:ℚ)/5 ≤ calculate_agent_suitability codegen_agent "unknown_type"
      ["nonexistent_capability"] ∧
    find_agent_for_task [codegen_agent] "unknown_type"
      ["nonexistent_capability"] ≠ none :=
  ⟨suitability_floor_and_no_agent_iff_empty.1 codegen_agent "unknown_type"
     ["nonexistent_capability"] (by decide),
   fun hnone => List.noConfusion
     ((suitability_floor_and_no_agent_iff_empty.2 [codegen_agent]
        "unknown_type" ["nonexistent_capability"] (by decide)).mp hnone)⟩

end AgentsSystem
